import Mathlib

/-!
Verification development for the chattycathy auth/session core.

Shallow embedding of:
 - `api/pkg/auth/jwt.go` (access-token issuance and validation),
 - `api/pkg/middleware/jwt.go` (permission gates),
 - `api/db/models/rbac.go` (permission resolution and seeding),
 - the Redis-backed refresh-session store and the auth HTTP handlers
   (`StoreRefreshToken`, `GetRefreshTokenData`, `RevokeRefreshToken`,
   `RevokeAllUserTokens`, `ListUserTokens`, `Handler.Refresh`,
   `Handler.LogoutAll`).

Time is modeled as Unix seconds (`Int`).  RSA signatures are modeled
ideally: a signature is the triple (key id, algorithm, signed payload) and
verification checks that triple against the verifying key; this captures
exactly the guarantees the code relies on (a signature binds one key, one
algorithm and one payload).
-/

/-- Algorithms that can appear in a JWT header.  `SigningMethodRSA` in
golang-jwt covers RS256/RS384/RS512; HS256 and the none algorithm stand in
for every non-RSA method an attacker could substitute. -/
inductive Alg where
  | RS256
  | RS384
  | RS512
  | HS256
  | noAlg
deriving DecidableEq, Repr

/-- Mirrors the Go type assertion `token.Method.(*jwt.SigningMethodRSA)`
in `ValidateToken`'s key function. -/
def Alg.isRSA : Alg → Bool
  | .RS256 => true
  | .RS384 => true
  | .RS512 => true
  | _ => false

/-- Claims of `api/pkg/auth/jwt.go`: the custom fields plus the registered
claims the code sets (`Issuer`, `Subject`, `IssuedAt`, `ExpiresAt`,
`NotBefore`). -/
structure Claims where
  userID : String
  username : String
  role : String
  permissions : List String
  issuer : String
  subject : String
  issuedAt : Int
  expiresAt : Int
  notBefore : Int
deriving DecidableEq, Repr

/-- Idealized RSA signature: records which key produced it, under which
algorithm, over which payload. -/
structure Sig where
  keyId : Nat
  alg : Alg
  payload : Claims
deriving DecidableEq, Repr

/-- Signing with the private key of the pair identified by `k`. -/
def rsaSign (k : Nat) (a : Alg) (c : Claims) : Sig :=
  { keyId := k, alg := a, payload := c }

/-- A compact (non-malformed) signed token: header algorithm, claims,
signature. -/
structure SignedToken where
  alg : Alg
  claims : Claims
  sig : Sig
deriving DecidableEq, Repr

/-- GenerateAccessToken from `api/pkg/auth/jwt.go`: errors when the module
key is nil, otherwise signs the claims with RS256; `IssuedAt = now`,
`NotBefore = now`, `ExpiresAt = now + expiryMins minutes`. -/
def GenerateAccessToken (privKey : Option Nat) (userID username role : String)
    (permissions : List String) (issuer : String) (expiryMins : Int) (now : Int) :
    Except String SignedToken :=
  match privKey with
  | none => .error "JWT not initialized"
  | some k =>
    let claims : Claims :=
      { userID := userID, username := username, role := role,
        permissions := permissions, issuer := issuer, subject := userID,
        issuedAt := now, expiresAt := now + expiryMins * 60, notBefore := now }
    .ok { alg := .RS256, claims := claims, sig := rsaSign k .RS256 claims }

/-- ValidateToken from `api/pkg/auth/jwt.go`: nil-key check, then the key
function's RSA-method check, signature verification against the public key,
and golang-jwt v5's default registered-claim validation (expiry and
not-before, zero leeway — no `WithLeeway` option is passed). -/
def ValidateToken (pubKey : Option Nat) (tok : SignedToken) (now : Int) :
    Except String Claims :=
  match pubKey with
  | none => .error "JWT not initialized"
  | some pub =>
    if tok.alg.isRSA = true then
      if tok.sig = rsaSign pub tok.alg tok.claims then
        if tok.claims.expiresAt < now then .error "token is expired"
        else if now < tok.claims.notBefore then .error "token is not valid yet"
        else .ok tok.claims
      else .error "token signature is invalid"
    else .error "token is unverifiable: unexpected signing method"

/-- C2: for every keypair, every set of claim inputs and every TTL > 0,
validating immediately after issuing returns exactly the input identity,
role, permission and issuer fields; only issued-at, not-before and
expires-at are server-assigned. -/
theorem generate_then_validate_roundtrip (k : Nat) (uid un role : String)
    (perms : List String) (iss : String) (ttl now : Int) (h : 0 < ttl) :
    (GenerateAccessToken (some k) uid un role perms iss ttl now).bind
        (fun tok => ValidateToken (some k) tok now) =
      .ok { userID := uid, username := un, role := role, permissions := perms,
            issuer := iss, subject := uid, issuedAt := now,
            expiresAt := now + ttl * 60, notBefore := now } := by
  have hexp : ¬ (now + ttl * 60 < now) := by nlinarith
  simp [GenerateAccessToken, ValidateToken, Alg.isRSA, rsaSign, Except.bind, hexp]

/-- Witness for C2 at a concrete keypair, claim set and TTL. -/
theorem generate_then_validate_roundtrip_witness :
    0 < (15 : Int) ∧
    (GenerateAccessToken (some 1) "user-alice" "alice" "user"
          ["ping:read", "news:read"] "chattycathy" 15 1000).bind
        (fun tok => ValidateToken (some 1) tok 1000) =
      .ok { userID := "user-alice", username := "alice", role := "user",
            permissions := ["ping:read", "news:read"], issuer := "chattycathy",
            subject := "user-alice", issuedAt := 1000,
            expiresAt := 1000 + 15 * 60, notBefore := 1000 } :=
  ⟨by decide,
   generate_then_validate_roundtrip 1 "user-alice" "alice" "user"
     ["ping:read", "news:read"] "chattycathy" 15 1000 (by decide)⟩

/-- C5: validation rejects every token whose header algorithm is outside
the RSA family (algorithm-substitution defense), and rejects every token
whose expiry lies strictly before the current instant — zero grace
period. -/
theorem validate_rejects_bad_alg_and_expired (key : Option Nat)
    (tok : SignedToken) (now : Int) :
    (tok.alg.isRSA = false → (ValidateToken key tok now).isOk = false) ∧
    (tok.claims.expiresAt < now → (ValidateToken key tok now).isOk = false) := by
  constructor
  · intro halg
    cases key with
    | none => rfl
    | some pub =>
      unfold ValidateToken
      rw [halg]
      rfl
  · intro hexp
    cases key with
    | none => rfl
    | some pub =>
      unfold ValidateToken
      dsimp only
      by_cases halg : tok.alg.isRSA = true
      · rw [if_pos halg]
        by_cases hsig : tok.sig = rsaSign pub tok.alg tok.claims
        · rw [if_pos hsig, if_pos hexp]
          rfl
        · rw [if_neg hsig]
          rfl
      · rw [if_neg halg]
        rfl

/-- Token carrying a non-RSA header algorithm, for the C5 witness. -/
def hmacTok : SignedToken :=
  { alg := .HS256,
    claims := { userID := "u", username := "u", role := "user",
                permissions := [], issuer := "i", subject := "u",
                issuedAt := 0, expiresAt := 100, notBefore := 0 },
    sig := rsaSign 1 .HS256
      { userID := "u", username := "u", role := "user", permissions := [],
        issuer := "i", subject := "u", issuedAt := 0, expiresAt := 100,
        notBefore := 0 } }

/-- Token whose expiry lies in the past, for the C5 witness. -/
def expiredTok : SignedToken :=
  { alg := .RS256,
    claims := { userID := "u", username := "u", role := "user",
                permissions := [], issuer := "i", subject := "u",
                issuedAt := 0, expiresAt := 5, notBefore := 0 },
    sig := rsaSign 1 .RS256
      { userID := "u", username := "u", role := "user", permissions := [],
        issuer := "i", subject := "u", issuedAt := 0, expiresAt := 5,
        notBefore := 0 } }

/-- Witness for C5: a concrete HS256 token and a concrete expired token are
both rejected. -/
theorem validate_rejects_bad_alg_and_expired_witness :
    (hmacTok.alg.isRSA = false ∧
      (ValidateToken (some 1) hmacTok 0).isOk = false) ∧
    (expiredTok.claims.expiresAt < 10 ∧
      (ValidateToken (some 1) expiredTok 10).isOk = false) :=
  ⟨⟨by decide,
    (validate_rejects_bad_alg_and_expired (some 1) hmacTok 0).1 (by decide)⟩,
   ⟨by decide,
    (validate_rejects_bad_alg_and_expired (some 1) expiredTok 10).2 (by decide)⟩⟩

/-!
Middleware permission gates from `api/pkg/middleware/jwt.go`.  The Gin
context either carries decoded `*auth.Claims` or it does not; the
impossible wrong-dynamic-type branch (500) cannot arise in the typed
embedding, so the context is an `Option Claims`.
-/

/-- Outcome of a gate middleware: `next` continues the chain; the other
constructors are the abort responses, carrying the JSON payload fields the
code writes. -/
inductive GateResult where
  | next
  | unauthenticated
  | forbiddenRequired (required : List String)
  | forbiddenMissing (missing : List String)
deriving DecidableEq, Repr

/-- RequirePermission: builds the set of the token's permissions and walks
the required list; the first required permission held by the user passes
the request, otherwise it aborts Forbidden with the full required list in
the response. -/
def RequirePermission (permissions : List String) (ctxClaims : Option Claims) :
    GateResult :=
  match ctxClaims with
  | none => .unauthenticated
  | some claims =>
    if permissions.any (fun required => claims.permissions.contains required) then
      .next
    else
      .forbiddenRequired permissions

/-- RequireAllPermissions: collects the required permissions the token does
not hold; aborts Forbidden with that missing subset when non-empty,
otherwise continues. -/
def RequireAllPermissions (permissions : List String) (ctxClaims : Option Claims) :
    GateResult :=
  match ctxClaims with
  | none => .unauthenticated
  | some claims =>
    let missing :=
      permissions.filter (fun required => !(claims.permissions.contains required))
    if missing = [] then .next else .forbiddenMissing missing

/-- C8: for decoded claims and a non-empty required list, RequirePermission
passes exactly when the token's permission snapshot intersects the required
set; otherwise it fails Forbidden and the denial enumerates exactly the
required permissions. -/
theorem requirePermission_iff_intersects (claims : Claims)
    (perms : List String) (hne : perms ≠ []) :
    (RequirePermission perms (some claims) = .next ↔
      ∃ p, p ∈ perms ∧ p ∈ claims.permissions) ∧
    ((¬ ∃ p, p ∈ perms ∧ p ∈ claims.permissions) →
      RequirePermission perms (some claims) = .forbiddenRequired perms) := by
  have hany : (perms.any fun required => claims.permissions.contains required) = true ↔
      ∃ p, p ∈ perms ∧ p ∈ claims.permissions := by
    simp
  have key : RequirePermission perms (some claims) =
      (if (perms.any fun required => claims.permissions.contains required) = true then
        GateResult.next
      else GateResult.forbiddenRequired perms) := rfl
  by_cases h : (perms.any fun required => claims.permissions.contains required) = true
  · refine ⟨?_, ?_⟩
    · rw [key, if_pos h]
      exact ⟨fun _ => hany.mp h, fun _ => rfl⟩
    · intro hno
      exact absurd (hany.mp h) hno
  · refine ⟨?_, ?_⟩
    · rw [key, if_neg h]
      constructor
      · intro hcontra
        simp at hcontra
      · intro hex
        exact absurd (hany.mpr hex) h
    · intro hno
      rw [key, if_neg h]

/-- Claims carried by the spec's demo `user` role, used as a concrete
input. -/
def demoClaims : Claims :=
  { userID := "user-alice", username := "alice", role := "user",
    permissions := ["ping:read", "news:read"], issuer := "chattycathy",
    subject := "user-alice", issuedAt := 0, expiresAt := 900, notBefore := 0 }

/-- Witness for C8 at the spec's scenario: a `user` token asked for
`news:delete` is denied with required = ["news:delete"]. -/
theorem requirePermission_iff_intersects_witness :
    (["news:delete"] ≠ ([] : List String)) ∧
    ((RequirePermission ["news:delete"] (some demoClaims) = .next ↔
        ∃ p, p ∈ ["news:delete"] ∧ p ∈ demoClaims.permissions) ∧
      ((¬ ∃ p, p ∈ ["news:delete"] ∧ p ∈ demoClaims.permissions) →
        RequirePermission ["news:delete"] (some demoClaims) =
          .forbiddenRequired ["news:delete"])) :=
  ⟨by decide, requirePermission_iff_intersects demoClaims ["news:delete"] (by decide)⟩

/-- C10: on the empty required list the two gates behave oppositely for
every authenticated request: RequirePermission denies with required = [],
RequireAllPermissions passes. -/
theorem empty_required_list_gates (claims : Claims) :
    RequirePermission [] (some claims) = .forbiddenRequired [] ∧
    RequireAllPermissions [] (some claims) = .next := by
  constructor <;> rfl

/-!
RBAC model from `api/db/models/rbac.go`.  The relational state is the four
tables the code touches plus the autoincrement counters; GORM's
`FirstOrCreate` keyed on `name` becomes insert-if-name-absent.
-/

/-- Row of the `permissions` table. -/
structure PermRow where
  id : Nat
  name : String
  description : String
  resource : String
  action : String
deriving DecidableEq, Repr

/-- Row of the `roles` table. -/
structure RoleRow where
  id : Nat
  name : String
  description : String
  isSystem : Bool
deriving DecidableEq, Repr

/-- Row of the `role_permissions` join table. -/
structure RolePermRow where
  roleId : Nat
  permId : Nat
deriving DecidableEq, Repr

/-- Row of the `user_roles` join table. -/
structure UserRoleRow where
  userId : Nat
  roleId : Nat
deriving DecidableEq, Repr

/-- Relational state used by `rbac.go`. -/
structure RbacDB where
  permissions : List PermRow
  roles : List RoleRow
  rolePerms : List RolePermRow
  userRoles : List UserRoleRow
  nextPermId : Nat
  nextRoleId : Nat
deriving DecidableEq, Repr

/-- GetUserPermissions: the raw SQL `SELECT DISTINCT p.name FROM
permissions p JOIN role_permissions rp ON p.id = rp.permission_id JOIN
user_roles ur ON rp.role_id = ur.role_id WHERE ur.user_id = ?`. -/
def GetUserPermissions (db : RbacDB) (userID : Nat) : List String :=
  ((db.permissions.filter (fun p =>
      db.rolePerms.any (fun rp => rp.permId == p.id &&
        db.userRoles.any (fun ur =>
          ur.userId == userID && ur.roleId == rp.roleId)))).map
    (fun p => p.name)).dedup

/-- Membership of a (user, role) pair in the `user_roles` table. -/
def userHasRole (db : RbacDB) (userID roleId : Nat) : Prop :=
  ∃ ur, ur ∈ db.userRoles ∧ ur.userId = userID ∧ ur.roleId = roleId

/-- A role grants a permission name when some permission row carries the
name and `role_permissions` links the role to it. -/
def roleGrants (db : RbacDB) (roleId : Nat) (permName : String) : Prop :=
  ∃ p, p ∈ db.permissions ∧ p.name = permName ∧
    ∃ rp, rp ∈ db.rolePerms ∧ rp.roleId = roleId ∧ rp.permId = p.id

/-- C6: permission resolution returns a duplicate-free list whose members
are exactly the union, over the roles assigned to the user, of the
permission names those roles grant. -/
theorem getUserPermissions_is_role_union (db : RbacDB) (userID : Nat) :
    (GetUserPermissions db userID).Nodup ∧
    ∀ n, n ∈ GetUserPermissions db userID ↔
      ∃ r, userHasRole db userID r ∧ roleGrants db r n := by
  refine ⟨List.nodup_dedup _, fun n => ?_⟩
  unfold GetUserPermissions userHasRole roleGrants
  rw [List.mem_dedup, List.mem_map]
  simp only [List.mem_filter, List.any_eq_true, Bool.and_eq_true, beq_iff_eq]
  constructor
  · rintro ⟨p, ⟨hp, rp, hrp, hpid, ur, hur, huid, hrid⟩, hname⟩
    exact ⟨rp.roleId, ⟨ur, hur, huid, hrid⟩, p, hp, hname, rp, hrp, rfl, hpid⟩
  · rintro ⟨r, ⟨ur, hur, huid, hrid⟩, p, hp, hname, rp, hrp, hrprole, hpid⟩
    refine ⟨p, ⟨hp, rp, hrp, hpid, ur, hur, huid, ?_⟩, hname⟩
    rw [hrid, hrprole]

/-- Permission fields of the seed catalog (the id is assigned on
insert). -/
structure PermSpec where
  name : String
  description : String
  resource : String
  action : String
deriving DecidableEq, Repr

/-- Default permission catalog of `SeedDefaultRolesAndPermissions`. -/
def defaultPermSpecs : List PermSpec :=
  [ { name := "ping:read", description := "Can ping the API",
      resource := "ping", action := "read" },
    { name := "news:read", description := "Can read news articles",
      resource := "news", action := "read" },
    { name := "news:create", description := "Can create news articles",
      resource := "news", action := "create" },
    { name := "news:update", description := "Can update news articles",
      resource := "news", action := "update" },
    { name := "news:delete", description := "Can delete news articles",
      resource := "news", action := "delete" },
    { name := "users:read", description := "Can view users",
      resource := "users", action := "read" },
    { name := "users:update", description := "Can update users",
      resource := "users", action := "update" },
    { name := "users:delete", description := "Can delete users",
      resource := "users", action := "delete" },
    { name := "users:manage_roles", description := "Can manage user roles",
      resource := "users", action := "manage_roles" },
    { name := "roles:read", description := "Can view roles",
      resource := "roles", action := "read" },
    { name := "roles:create", description := "Can create roles",
      resource := "roles", action := "create" },
    { name := "roles:update", description := "Can update roles",
      resource := "roles", action := "update" },
    { name := "roles:delete", description := "Can delete roles",
      resource := "roles", action := "delete" } ]

/-- Test used by GORM `Where("name = ?") .FirstOrCreate` on permissions. -/
def permNameExists (db : RbacDB) (n : String) : Bool :=
  db.permissions.any (fun p => p.name == n)

/-- One `FirstOrCreate` step on the permissions table: insert the row only
when no row carries the name; never update an existing row. -/
def seedPerm (db : RbacDB) (t : PermSpec) : RbacDB :=
  if permNameExists db t.name then db
  else
    { db with
      permissions := db.permissions ++
        [{ id := db.nextPermId, name := t.name, description := t.description,
           resource := t.resource, action := t.action }],
      nextPermId := db.nextPermId + 1 }

/-- The permission seeding loop. -/
def seedPerms : RbacDB → List PermSpec → RbacDB
  | db, [] => db
  | db, t :: ts => seedPerms (seedPerm db t) ts

/-- Test used by `Where("name = ?").First` on roles. -/
def roleNameExists (db : RbacDB) (n : String) : Bool :=
  db.roles.any (fun r => r.name == n)

/-- One role-creation step: when no role carries the name, create the role
row and its `role_permissions` association rows; otherwise leave the
database untouched (the code does not update existing roles). -/
def createRoleWithPerms (db : RbacDB) (rname rdescription : String)
    (rsystem : Bool) (perms : List PermRow) : RbacDB :=
  if roleNameExists db rname then db
  else
    { db with
      roles := db.roles ++
        [{ id := db.nextRoleId, name := rname, description := rdescription,
           isSystem := rsystem }],
      rolePerms := db.rolePerms ++
        perms.map (fun p => { roleId := db.nextRoleId, permId := p.id }),
      nextRoleId := db.nextRoleId + 1 }

/-- SeedDefaultRolesAndPermissions: seed the permission catalog, query the
admin/user/editor permission lists from the freshly seeded table, then
create the three default roles if absent. -/
def SeedDefaultRolesAndPermissions (db : RbacDB) : RbacDB :=
  let db1 := seedPerms db defaultPermSpecs
  let allPerms := db1.permissions
  let userPerms := db1.permissions.filter
    (fun p => p.name == "ping:read" || p.name == "news:read")
  let editorPerms := db1.permissions.filter
    (fun p => p.name == "ping:read" || p.name == "news:read" ||
      p.name == "news:create" || p.name == "news:update")
  let db2 := createRoleWithPerms db1 "admin" "Administrator with full access"
    true allPerms
  let db3 := createRoleWithPerms db2 "user" "Regular user with basic access"
    true userPerms
  createRoleWithPerms db3 "editor" "Editor with news management access"
    false editorPerms

lemma permNameExists_seedPerm_mono (db : RbacDB) (t : PermSpec) (n : String)
    (h : permNameExists db n = true) :
    permNameExists (seedPerm db t) n = true := by
  unfold seedPerm
  split
  · exact h
  · unfold permNameExists at h ⊢
    simp only [List.any_append, Bool.or_eq_true]
    exact Or.inl h

lemma permNameExists_seedPerm_self (db : RbacDB) (t : PermSpec) :
    permNameExists (seedPerm db t) t.name = true := by
  unfold seedPerm
  split
  · assumption
  · unfold permNameExists
    simp

lemma permNameExists_seedPerms_mono (ts : List PermSpec) (db : RbacDB)
    (n : String) (h : permNameExists db n = true) :
    permNameExists (seedPerms db ts) n = true := by
  induction ts generalizing db with
  | nil => exact h
  | cons t ts ih => exact ih _ (permNameExists_seedPerm_mono db t n h)

lemma permNameExists_seedPerms_all (ts : List PermSpec) (db : RbacDB) :
    ∀ t ∈ ts, permNameExists (seedPerms db ts) t.name = true := by
  induction ts generalizing db with
  | nil => intro t ht; cases ht
  | cons t ts ih =>
    intro u hu
    cases hu with
    | head =>
      exact permNameExists_seedPerms_mono ts _ _
        (permNameExists_seedPerm_self db t)
    | tail _ hmem => exact ih _ u hmem

lemma seedPerm_id (db : RbacDB) (t : PermSpec)
    (h : permNameExists db t.name = true) : seedPerm db t = db := by
  unfold seedPerm
  rw [if_pos h]

lemma seedPerms_id (ts : List PermSpec) (db : RbacDB)
    (h : ∀ t ∈ ts, permNameExists db t.name = true) : seedPerms db ts = db := by
  induction ts with
  | nil => rfl
  | cons t ts ih =>
    have h1 : seedPerm db t = db := seedPerm_id db t (h t (List.mem_cons_self t ts))
    show seedPerms (seedPerm db t) ts = db
    rw [h1]
    exact ih (fun u hu => h u (List.mem_cons_of_mem t hu))

lemma seedPerm_roles (db : RbacDB) (t : PermSpec) :
    (seedPerm db t).roles = db.roles := by
  unfold seedPerm
  split <;> rfl

lemma seedPerms_roles (ts : List PermSpec) (db : RbacDB) :
    (seedPerms db ts).roles = db.roles := by
  induction ts generalizing db with
  | nil => rfl
  | cons t ts ih =>
    show (seedPerms (seedPerm db t) ts).roles = db.roles
    rw [ih, seedPerm_roles]

lemma createRole_permissions (db : RbacDB) (rname rdescription : String)
    (rsystem : Bool) (perms : List PermRow) :
    (createRoleWithPerms db rname rdescription rsystem perms).permissions =
      db.permissions := by
  unfold createRoleWithPerms
  split <;> rfl

lemma permNameExists_createRole (db : RbacDB) (rname rdescription : String)
    (rsystem : Bool) (perms : List PermRow) (n : String) :
    permNameExists (createRoleWithPerms db rname rdescription rsystem perms) n =
      permNameExists db n := by
  unfold permNameExists
  rw [createRole_permissions]

lemma roleNameExists_createRole_mono (db : RbacDB)
    (rname rdescription : String) (rsystem : Bool) (perms : List PermRow)
    (n : String) (h : roleNameExists db n = true) :
    roleNameExists (createRoleWithPerms db rname rdescription rsystem perms) n =
      true := by
  unfold createRoleWithPerms
  split
  · exact h
  · unfold roleNameExists at h ⊢
    simp only [List.any_append, Bool.or_eq_true]
    exact Or.inl h

lemma roleNameExists_createRole_self (db : RbacDB)
    (rname rdescription : String) (rsystem : Bool) (perms : List PermRow) :
    roleNameExists (createRoleWithPerms db rname rdescription rsystem perms)
      rname = true := by
  unfold createRoleWithPerms
  split
  · assumption
  · unfold roleNameExists
    simp

lemma createRole_id (db : RbacDB) (rname rdescription : String)
    (rsystem : Bool) (perms : List PermRow)
    (h : roleNameExists db rname = true) :
    createRoleWithPerms db rname rdescription rsystem perms = db := by
  unfold createRoleWithPerms
  rw [if_pos h]

lemma createRole_roles_mono (db : RbacDB) (rname rdescription : String)
    (rsystem : Bool) (perms : List PermRow) (r : RoleRow) (h : r ∈ db.roles) :
    r ∈ (createRoleWithPerms db rname rdescription rsystem perms).roles := by
  unfold createRoleWithPerms
  split
  · exact h
  · exact List.mem_append_left _ h

lemma seed_unfold (db : RbacDB) :
    SeedDefaultRolesAndPermissions db =
      createRoleWithPerms
        (createRoleWithPerms
          (createRoleWithPerms (seedPerms db defaultPermSpecs) "admin"
            "Administrator with full access" true
            (seedPerms db defaultPermSpecs).permissions)
          "user" "Regular user with basic access" true
          ((seedPerms db defaultPermSpecs).permissions.filter
            (fun p => p.name == "ping:read" || p.name == "news:read")))
        "editor" "Editor with news management access" false
        ((seedPerms db defaultPermSpecs).permissions.filter
          (fun p => p.name == "ping:read" || p.name == "news:read" ||
            p.name == "news:create" || p.name == "news:update")) := rfl

lemma seed_id_of_all (db : RbacDB)
    (hperm : ∀ t ∈ defaultPermSpecs, permNameExists db t.name = true)
    (hadmin : roleNameExists db "admin" = true)
    (huser : roleNameExists db "user" = true)
    (heditor : roleNameExists db "editor" = true) :
    SeedDefaultRolesAndPermissions db = db := by
  have h1 : seedPerms db defaultPermSpecs = db := seedPerms_id _ _ hperm
  rw [seed_unfold, h1, createRole_id _ _ _ _ _ hadmin,
    createRole_id _ _ _ _ _ huser]
  exact createRole_id _ _ _ _ _ heditor

/-- C7: running the seed routine a second time on the state produced by a
first run changes nothing — the role and permission rows are identical, so
there are no duplicates and no row-count growth — and every role row that
existed before a run (in particular its description) survives the run
unmodified. -/
theorem seed_twice_same_rows (db : RbacDB) :
    SeedDefaultRolesAndPermissions (SeedDefaultRolesAndPermissions db) =
      SeedDefaultRolesAndPermissions db ∧
    ∀ r ∈ db.roles, r ∈ (SeedDefaultRolesAndPermissions db).roles := by
  have hu := seed_unfold db
  have hperm1 : ∀ t ∈ defaultPermSpecs,
      permNameExists (SeedDefaultRolesAndPermissions db) t.name = true := by
    intro t ht
    rw [hu, permNameExists_createRole, permNameExists_createRole,
      permNameExists_createRole]
    exact permNameExists_seedPerms_all _ db t ht
  have hadmin : roleNameExists (SeedDefaultRolesAndPermissions db) "admin" =
      true := by
    rw [hu]
    exact roleNameExists_createRole_mono _ _ _ _ _ _
      (roleNameExists_createRole_mono _ _ _ _ _ _
        (roleNameExists_createRole_self _ _ _ _ _))
  have huser : roleNameExists (SeedDefaultRolesAndPermissions db) "user" =
      true := by
    rw [hu]
    exact roleNameExists_createRole_mono _ _ _ _ _ _
      (roleNameExists_createRole_self _ _ _ _ _)
  have heditor : roleNameExists (SeedDefaultRolesAndPermissions db) "editor" =
      true := by
    rw [hu]
    exact roleNameExists_createRole_self _ _ _ _ _
  refine ⟨seed_id_of_all _ hperm1 hadmin huser heditor, ?_⟩
  intro r hr
  rw [hu]
  apply createRole_roles_mono
  apply createRole_roles_mono
  apply createRole_roles_mono
  rw [seedPerms_roles]
  exact hr

/-- Database that already holds a custom role, for the C7 witness. -/
def dbWithRole : RbacDB :=
  { permissions := [],
    roles := [{ id := 7, name := "custom", description := "my role",
                isSystem := false }],
    rolePerms := [], userRoles := [], nextPermId := 1, nextRoleId := 8 }

/-- Witness for C7: re-seeding the seeded concrete database is a no-op and
the pre-existing custom role row survives with its description intact. -/
theorem seed_twice_same_rows_witness :
    SeedDefaultRolesAndPermissions (SeedDefaultRolesAndPermissions dbWithRole) =
      SeedDefaultRolesAndPermissions dbWithRole ∧
    ({ id := 7, name := "custom", description := "my role",
       isSystem := false } : RoleRow) ∈
      (SeedDefaultRolesAndPermissions dbWithRole).roles :=
  ⟨(seed_twice_same_rows dbWithRole).1,
   (seed_twice_same_rows dbWithRole).2 _ (by decide)⟩

/-!
Redis-backed refresh-session store (the `auth` redis file) and the auth
handlers (`Handler.Refresh`, `Handler.LogoutAll`).

The Go code namespaces its keys with the distinct constant string
"refresh_token:" (string values) and "user_tokens:" (set values), so the
two families can never collide; the state therefore keeps one map per
family, keyed by the part after the colon.  `redis.Connect` assigns the
package client even when the ping fails, so three client conditions exist:
the nil client (`Connect` never ran), a client whose backend is
unreachable (every command returns a transport error), and a healthy
client.  TTLs are enforced by Redis itself and never read back by the
code, so the expiry arguments of `SET`/`EXPIRE` have no effect on the
modeled state.  `json.Marshal`/`json.Unmarshal` on `RefreshTokenData`
round-trip losslessly and are modeled as the identity.
-/

/-- Condition of the package-level go-redis client. -/
inductive RedisConn where
  | notInitialized
  | unavailable
  | available
deriving DecidableEq, Repr

/-- RefreshTokenData from the session-store file. -/
structure RefreshTokenData where
  userID : String
  username : String
  role : String
  permissions : List String
  createdAt : Int
  userAgent : String
  ip : String
deriving DecidableEq, Repr

/-- State of the Redis instance as the session store uses it:
`kv t` is the value under key `refresh_token:` ++ t, `sets u` the set under
`user_tokens:` ++ u (Redis treats a missing set key and an empty set the
same way for `SMEMBERS`/`SADD`). -/
structure RedisState where
  conn : RedisConn
  kv : String → Option RefreshTokenData
  sets : String → List String

/-- Transport error every command returns when the backend is
unreachable. -/
def netErrMsg : String := "connection refused"

/-- `SET refresh_token:<token> <data> EX <ttl>`. -/
def redisSet (s : RedisState) (token : String) (v : RefreshTokenData) :
    Except String RedisState :=
  match s.conn with
  | .available =>
    .ok { s with kv := fun k => if k = token then some v else s.kv k }
  | _ => .error netErrMsg

/-- `GET refresh_token:<token>` (`redis.Nil` on a missing key). -/
def redisGet (s : RedisState) (token : String) :
    Except String RefreshTokenData :=
  match s.conn with
  | .available =>
    match s.kv token with
    | some v => .ok v
    | none => .error "redis: nil"
  | _ => .error netErrMsg

/-- `SADD user_tokens:<u> <t>`. -/
def redisSAdd (s : RedisState) (u t : String) : Except String RedisState :=
  match s.conn with
  | .available =>
    .ok { s with
          sets := fun k =>
            if k = u then
              if t ∈ s.sets u then s.sets u else s.sets u ++ [t]
            else s.sets k }
  | _ => .error netErrMsg

/-- `SREM user_tokens:<u> <t>`. -/
def redisSRem (s : RedisState) (u t : String) : Except String RedisState :=
  match s.conn with
  | .available =>
    .ok { s with
          sets := fun k =>
            if k = u then (s.sets u).filter (fun x => x != t) else s.sets k }
  | _ => .error netErrMsg

/-- `DEL refresh_token:<token>` (no error on a missing key). -/
def redisDelKV (s : RedisState) (token : String) : Except String RedisState :=
  match s.conn with
  | .available =>
    .ok { s with kv := fun k => if k = token then none else s.kv k }
  | _ => .error netErrMsg

/-- `DEL user_tokens:<u>`. -/
def redisDelSet (s : RedisState) (u : String) : Except String RedisState :=
  match s.conn with
  | .available =>
    .ok { s with sets := fun k => if k = u then [] else s.sets k }
  | _ => .error netErrMsg

/-- `SMEMBERS user_tokens:<u>`. -/
def redisSMembers (s : RedisState) (u : String) : Except String (List String) :=
  match s.conn with
  | .available => .ok (s.sets u)
  | _ => .error netErrMsg

/-- StoreRefreshToken: nil-client check, marshal (infallible here), `SET`
of the record, `SADD` into the user's index set, best-effort `EXPIRE` of
the index whose result is discarded. -/
def StoreRefreshToken (s : RedisState) (token : String)
    (data : RefreshTokenData) : Except String RedisState :=
  if s.conn = .notInitialized then .error "redis client not initialized"
  else
    match redisSet s token data with
    | .error e => .error ("failed to store refresh token: " ++ e)
    | .ok s1 =>
      match redisSAdd s1 data.userID token with
      | .error e => .error ("failed to add token to user set: " ++ e)
      | .ok s2 => .ok s2

/-- GetRefreshTokenData: nil-client check, `GET`; any `GET` error — a miss
or a transport failure alike — becomes the single message below. -/
def GetRefreshTokenData (s : RedisState) (token : String) :
    Except String RefreshTokenData :=
  if s.conn = .notInitialized then .error "redis client not initialized"
  else
    match redisGet s token with
    | .error _ => .error "refresh token not found or expired"
    | .ok d => .ok d

/-- RevokeRefreshToken: look the record up to learn its user, best-effort
`SREM` from that user's index (result discarded), then `DEL` the record,
returning the `DEL` error. -/
def RevokeRefreshToken (s : RedisState) (token : String) :
    Except String RedisState :=
  if s.conn = .notInitialized then .error "redis client not initialized"
  else
    let s1 :=
      match GetRefreshTokenData s token with
      | .ok d =>
        match redisSRem s d.userID token with
        | .ok sr => sr
        | .error _ => s
      | .error _ => s
    match redisDelKV s1 token with
    | .error e => .error e
    | .ok s2 => .ok s2

/-- Deletion loop of RevokeAllUserTokens: `DEL` each listed record,
ignoring individual failures. -/
def delManyKV : RedisState → List String → RedisState
  | s, [] => s
  | s, t :: ts =>
    delManyKV (match redisDelKV s t with | .ok s1 => s1 | .error _ => s) ts

/-- RevokeAllUserTokens: `SMEMBERS` of the user's index, delete every
referenced record, then delete the index set itself. -/
def RevokeAllUserTokens (s : RedisState) (userID : String) :
    Except String RedisState :=
  if s.conn = .notInitialized then .error "redis client not initialized"
  else
    match redisSMembers s userID with
    | .error e => .error ("failed to get user tokens: " ++ e)
    | .ok tokens =>
      match redisDelSet (delManyKV s tokens) userID with
      | .error e => .error e
      | .ok s2 => .ok s2

/-- Enumeration loop of ListUserTokens: fetch each listed token; a token
that no longer resolves is pruned from the index (`SREM`, best-effort) and
skipped. -/
def listLoop : RedisState → String → List String → List RefreshTokenData →
    List RefreshTokenData × RedisState
  | s, _, [], acc => (acc, s)
  | s, userID, t :: ts, acc =>
    match GetRefreshTokenData s t with
    | .error _ =>
      listLoop
        (match redisSRem s userID t with | .ok sr => sr | .error _ => s)
        userID ts acc
    | .ok d => listLoop s userID ts (acc ++ [d])

/-- ListUserTokens: `SMEMBERS` of the user's index, then the enumeration
loop. -/
def ListUserTokens (s : RedisState) (userID : String) :
    Except String (List RefreshTokenData × RedisState) :=
  if s.conn = .notInitialized then .error "redis client not initialized"
  else
    match redisSMembers s userID with
    | .error e => .error ("failed to get user tokens: " ++ e)
    | .ok tokens => .ok (listLoop s userID tokens [])

/-- Outcome of `Handler.Refresh`, carrying the JSON payload the code
writes: 401 for a missing token, 401 "invalid or expired refresh token"
for a token that does not resolve, 500 on store failure, or the new token
pair (the fresh opaque refresh token and the stored session data; access
tokens always issue once the keypair is initialized). -/
inductive RefreshResult where
  | missingToken
  | invalidOrExpired
  | serverError (msg : String)
  | success (newRefreshTok : String) (data : RefreshTokenData)
deriving DecidableEq, Repr

/-- Handler.Refresh: read the presented token (empty when absent from
cookie, body and header), resolve it, best-effort revoke the old record
(a failed revoke is logged, not fatal), then store a fresh session under
the freshly generated opaque token with the original identity/role/
permission snapshot and new client metadata. -/
def HandlerRefresh (s : RedisState) (presented newRefreshTok : String)
    (now : Int) (ua ip : String) : RefreshResult × RedisState :=
  if presented = "" then (.missingToken, s)
  else
    match GetRefreshTokenData s presented with
    | .error _ => (.invalidOrExpired, s)
    | .ok tokenData =>
      let s1 :=
        match RevokeRefreshToken s presented with
        | .ok sr => sr
        | .error _ => s
      let newData : RefreshTokenData :=
        { userID := tokenData.userID, username := tokenData.username,
          role := tokenData.role, permissions := tokenData.permissions,
          createdAt := now, userAgent := ua, ip := ip }
      match StoreRefreshToken s1 newRefreshTok newData with
      | .error _ => (.serverError "failed to create session", s1)
      | .ok s2 => (.success newRefreshTok newData, s2)

/-- Outcome of `Handler.LogoutAll`. -/
inductive LogoutAllResult where
  | notAuthenticated
  | serverError (msg : String)
  | success
deriving DecidableEq, Repr

/-- Handler.LogoutAll: requires decoded claims in the context, then
revokes every refresh token of the authenticated user. -/
def HandlerLogoutAll (s : RedisState) (ctxClaims : Option Claims) :
    LogoutAllResult × RedisState :=
  match ctxClaims with
  | none => (.notAuthenticated, s)
  | some claims =>
    match RevokeAllUserTokens s claims.userID with
    | .error _ => (.serverError "failed to logout all sessions", s)
    | .ok s1 => (.success, s1)

/-- Completeness of the per-user index: every live session record's token
is a member of its user's session-index set. -/
def IndexComplete (s : RedisState) : Prop :=
  ∀ t d, s.kv t = some d → t ∈ s.sets d.userID

/-- State after a put, used to state C9 (`StoreRefreshToken` only succeeds
on a healthy client, in which case this is the new state). -/
def storePutState (s : RedisState) (token : String)
    (data : RefreshTokenData) : RedisState :=
  match StoreRefreshToken s token data with
  | .ok s2 => s2
  | .error _ => s

/-- Equation for `StoreRefreshToken` on a healthy client. -/
lemma store_avail (s : RedisState) (tok : String) (data : RefreshTokenData)
    (h : s.conn = .available) :
    StoreRefreshToken s tok data =
      .ok { s with
            kv := fun k => if k = tok then some data else s.kv k,
            sets := fun k =>
              if k = data.userID then
                if tok ∈ s.sets data.userID then s.sets data.userID
                else s.sets data.userID ++ [tok]
              else s.sets k } := by
  obtain ⟨c, kvf, setf⟩ := s
  dsimp at h
  subst h
  rfl

/-- C9: a successful put leaves the stored token in its user's index set,
and preserves index completeness — every session created through put stays
reachable from the index. -/
theorem store_put_indexes_token (s : RedisState) (t : String)
    (d : RefreshTokenData) (h : s.conn = .available) :
    (StoreRefreshToken s t d).isOk = true ∧
    t ∈ (storePutState s t d).sets d.userID ∧
    (IndexComplete s → IndexComplete (storePutState s t d)) := by
  have hs := store_avail s t d h
  have hps : storePutState s t d =
      { s with
        kv := fun k => if k = t then some d else s.kv k,
        sets := fun k =>
          if k = d.userID then
            if t ∈ s.sets d.userID then s.sets d.userID
            else s.sets d.userID ++ [t]
          else s.sets k } := by
    unfold storePutState
    rw [hs]
  have hmem : t ∈ (storePutState s t d).sets d.userID := by
    rw [hps]
    dsimp only
    rw [if_pos rfl]
    by_cases hm : t ∈ s.sets d.userID
    · rw [if_pos hm]
      exact hm
    · rw [if_neg hm]
      simp
  refine ⟨by rw [hs]; rfl, hmem, ?_⟩
  intro hinv t2 d2 h2
  rw [hps] at h2 ⊢
  dsimp only at h2 ⊢
  by_cases ht2 : t2 = t
  · subst ht2
    rw [if_pos rfl] at h2
    obtain rfl : d = d2 := by
      injection h2
    have := hmem
    rw [hps] at this
    exact this
  · rw [if_neg ht2] at h2
    have hbase := hinv t2 d2 h2
    by_cases hu : d2.userID = d.userID
    · rw [if_pos hu]
      rw [hu] at hbase
      by_cases hm : t ∈ s.sets d.userID
      · rw [if_pos hm]
        exact hbase
      · rw [if_neg hm]
        exact List.mem_append_left _ hbase
    · rw [if_neg hu]
      exact hbase

/-- Healthy empty store, a concrete input for witnesses. -/
def emptyAvailState : RedisState :=
  { conn := .available, kv := fun _ => none, sets := fun _ => [] }

/-- Concrete session metadata for witnesses. -/
def demoData : RefreshTokenData :=
  { userID := "42", username := "alice", role := "user",
    permissions := ["ping:read", "news:read"], createdAt := 0,
    userAgent := "UA", ip := "127.0.0.1" }

/-- Witness for C9 at a concrete healthy store and session. -/
theorem store_put_indexes_token_witness :
    emptyAvailState.conn = .available ∧
    ((StoreRefreshToken emptyAvailState "R1" demoData).isOk = true ∧
      "R1" ∈ (storePutState emptyAvailState "R1" demoData).sets
        demoData.userID ∧
      (IndexComplete emptyAvailState →
        IndexComplete (storePutState emptyAvailState "R1" demoData))) :=
  ⟨rfl, store_put_indexes_token emptyAvailState "R1" demoData rfl⟩

/-- Equation for `GetRefreshTokenData` on a healthy client and a live
record. -/
lemma get_avail_some (s : RedisState) (tok : String) (d : RefreshTokenData)
    (hc : s.conn = .available) (hk : s.kv tok = some d) :
    GetRefreshTokenData s tok = .ok d := by
  obtain ⟨c, kvf, setf⟩ := s
  dsimp at hc hk
  subst hc
  simp [GetRefreshTokenData, redisGet, hk]

/-- Equation for `GetRefreshTokenData` on a healthy client and a missing
record. -/
lemma get_avail_none (s : RedisState) (tok : String)
    (hc : s.conn = .available) (hk : s.kv tok = none) :
    GetRefreshTokenData s tok = .error "refresh token not found or expired" := by
  obtain ⟨c, kvf, setf⟩ := s
  dsimp at hc hk
  subst hc
  simp [GetRefreshTokenData, redisGet, hk]

/-- Equation for `RevokeRefreshToken` on a healthy client and a live
record: the record is removed from the user's index and deleted. -/
lemma revoke_avail_found (s : RedisState) (tok : String)
    (d : RefreshTokenData) (hc : s.conn = .available)
    (hk : s.kv tok = some d) :
    RevokeRefreshToken s tok =
      .ok { s with
            kv := fun k => if k = tok then none else s.kv k,
            sets := fun k =>
              if k = d.userID then (s.sets d.userID).filter (fun x => x != tok)
              else s.sets k } := by
  have hg := get_avail_some s tok d hc hk
  obtain ⟨c, kvf, setf⟩ := s
  dsimp at hc hk
  subst hc
  simp [RevokeRefreshToken, hg, redisSRem, redisDelKV]

/-- C1: a refresh token that resolves in a healthy store is exchanged
successfully exactly once: the refresh call succeeds and issues the fresh
token carrying the session's original identity snapshot, and presenting
the same token again on the resulting state fails with the 401
invalid-or-expired response, because rotation deleted the old record. -/
theorem refresh_rotation_single_use (s : RedisState) (t t1 t2 : String)
    (d : RefreshTokenData) (now1 now2 : Int) (ua1 ip1 ua2 ip2 : String)
    (hconn : s.conn = .available) (hstored : s.kv t = some d)
    (hne : t ≠ "") (hfresh : t1 ≠ t) :
    (HandlerRefresh s t t1 now1 ua1 ip1).fst =
      .success t1
        { userID := d.userID, username := d.username, role := d.role,
          permissions := d.permissions, createdAt := now1, userAgent := ua1,
          ip := ip1 } ∧
    (HandlerRefresh (HandlerRefresh s t t1 now1 ua1 ip1).snd t t2 now2 ua2
        ip2).fst = .invalidOrExpired := by
  have hfresh2 : ¬ (t = t1) := fun hh => hfresh hh.symm
  have hget := get_avail_some s t d hconn hstored
  have hrev := revoke_avail_found s t d hconn hstored
  set nd : RefreshTokenData :=
    { userID := d.userID, username := d.username, role := d.role,
      permissions := d.permissions, createdAt := now1, userAgent := ua1,
      ip := ip1 } with hnd
  set srev : RedisState :=
    { s with
      kv := fun k => if k = t then none else s.kv k,
      sets := fun k =>
        if k = d.userID then (s.sets d.userID).filter (fun x => x != t)
        else s.sets k } with hsrev
  have hsrevconn : srev.conn = .available := hconn
  have hstore := store_avail srev t1 nd hsrevconn
  have h1 : HandlerRefresh s t t1 now1 ua1 ip1 =
      (.success t1 nd, storePutState srev t1 nd) := by
    unfold HandlerRefresh
    rw [if_neg hne, hget, hrev]
    dsimp only
    rw [hstore]
    unfold storePutState
    rw [hstore]
  have hval : (storePutState srev t1 nd).kv t = none := by
    unfold storePutState
    rw [hstore]
    simp [hfresh2]
  have hconn2 : (storePutState srev t1 nd).conn = .available := by
    unfold storePutState
    rw [hstore]
    exact hconn
  refine ⟨by rw [h1], ?_⟩
  rw [h1]
  dsimp only
  unfold HandlerRefresh
  rw [if_neg hne, get_avail_none _ _ hconn2 hval]

/-- Healthy store holding one session, "R1" for user "42", indexed. -/
def oneTokenState : RedisState :=
  { conn := .available,
    kv := fun k => if k = "R1" then some demoData else none,
    sets := fun u => if u = "42" then ["R1"] else [] }

/-- Witness for C1: refreshing the concrete stored token "R1" succeeds and
immediately replaying "R1" is rejected. -/
theorem refresh_rotation_single_use_witness :
    (oneTokenState.conn = .available ∧
      oneTokenState.kv "R1" = some demoData ∧
      "R1" ≠ "" ∧ "R2" ≠ "R1") ∧
    ((HandlerRefresh oneTokenState "R1" "R2" 100 "UA2" "10.0.0.9").fst =
        .success "R2"
          { userID := demoData.userID, username := demoData.username,
            role := demoData.role, permissions := demoData.permissions,
            createdAt := 100, userAgent := "UA2", ip := "10.0.0.9" } ∧
      (HandlerRefresh
          (HandlerRefresh oneTokenState "R1" "R2" 100 "UA2" "10.0.0.9").snd
          "R1" "R3" 200 "UA3" "10.0.0.8").fst = .invalidOrExpired) :=
  ⟨⟨rfl, rfl, by decide, by decide⟩,
   refresh_rotation_single_use oneTokenState "R1" "R2" "R3" demoData 100 200
     "UA2" "10.0.0.9" "UA3" "10.0.0.8" rfl rfl (by decide) (by decide)⟩

/-- Equation for `redisDelSet` on a healthy client. -/
lemma redisDelSet_avail (s : RedisState) (u : String)
    (h : s.conn = .available) :
    redisDelSet s u =
      .ok { s with sets := fun k => if k = u then [] else s.sets k } := by
  obtain ⟨c, kvf, setf⟩ := s
  dsimp at h
  subst h
  rfl

/-- Equation for `redisSMembers` on a healthy client. -/
lemma redisSMembers_avail (s : RedisState) (u : String)
    (h : s.conn = .available) : redisSMembers s u = .ok (s.sets u) := by
  obtain ⟨c, kvf, setf⟩ := s
  dsimp at h
  subst h
  rfl

/-- Field characterization of the record-deletion loop on a healthy
client: the connection and the index sets are untouched and exactly the
listed record keys are cleared. -/
lemma delManyKV_fields (ts : List String) (s : RedisState)
    (h : s.conn = .available) :
    (delManyKV s ts).conn = .available ∧
    (delManyKV s ts).sets = s.sets ∧
    ∀ k, (delManyKV s ts).kv k = if k ∈ ts then none else s.kv k := by
  induction ts generalizing s with
  | nil =>
    refine ⟨h, rfl, fun k => ?_⟩
    simp [delManyKV]
  | cons t ts ih =>
    have hstep : delManyKV s (t :: ts) =
        delManyKV { s with kv := fun k => if k = t then none else s.kv k } ts := by
      show delManyKV
          (match redisDelKV s t with | .ok s1 => s1 | .error _ => s) ts = _
      obtain ⟨c, kvf, setf⟩ := s
      dsimp at h
      subst h
      rfl
    rw [hstep]
    have h2 : ({ s with kv := fun k => if k = t then none else s.kv k } :
        RedisState).conn = .available := h
    obtain ⟨hc, hs, hk⟩ := ih _ h2
    refine ⟨hc, by rw [hs], fun k => ?_⟩
    rw [hk k]
    by_cases hmem : k ∈ ts
    · simp [hmem]
    · by_cases hkt : k = t
      · simp [hmem, hkt]
      · simp [hmem, hkt]

/-- Equation for `RevokeAllUserTokens` on a healthy client. -/
lemma revokeAll_avail (s : RedisState) (uid : String)
    (h : s.conn = .available) :
    RevokeAllUserTokens s uid =
      .ok { delManyKV s (s.sets uid) with
            sets := fun k =>
              if k = uid then [] else (delManyKV s (s.sets uid)).sets k } := by
  have hni : ¬ (s.conn = RedisConn.notInitialized) := by simp [h]
  have hsm := redisSMembers_avail s uid h
  have hdc := (delManyKV_fields (s.sets uid) s h).1
  have hds := redisDelSet_avail _ uid hdc
  unfold RevokeAllUserTokens
  rw [if_neg hni, hsm]
  dsimp only
  rw [hds]

/-- C3: on a healthy store whose per-user index is complete, logout-all
succeeds and afterwards a refresh presenting any token the user held
before the call fails with the 401 invalid-or-expired response —
`RevokeAllUserTokens` walks the user's index set, deletes every referenced
session record, then deletes the index set. -/
theorem logout_all_blocks_prior_refresh (s : RedisState) (c : Claims)
    (t t1 : String) (d : RefreshTokenData) (now : Int) (ua ip : String)
    (hconn : s.conn = .available) (hinv : IndexComplete s)
    (hstored : s.kv t = some d) (huser : d.userID = c.userID)
    (hne : t ≠ "") :
    (HandlerLogoutAll s (some c)).fst = .success ∧
    (HandlerRefresh (HandlerLogoutAll s (some c)).snd t t1 now ua ip).fst =
      .invalidOrExpired := by
  obtain ⟨hdc, hdsets, hdkv⟩ := delManyKV_fields (s.sets c.userID) s hconn
  have hra := revokeAll_avail s c.userID hconn
  have hmemt : t ∈ s.sets c.userID := by
    rw [← huser]
    exact hinv t d hstored
  have hkvnone : ({ delManyKV s (s.sets c.userID) with
      sets := fun k =>
        if k = c.userID then [] else (delManyKV s (s.sets c.userID)).sets k } :
      RedisState).kv t = none := by
    show (delManyKV s (s.sets c.userID)).kv t = none
    rw [hdkv t, if_pos hmemt]
  have hconn3 : ({ delManyKV s (s.sets c.userID) with
      sets := fun k =>
        if k = c.userID then [] else (delManyKV s (s.sets c.userID)).sets k } :
      RedisState).conn = .available := hdc
  have hla : HandlerLogoutAll s (some c) =
      (.success,
        { delManyKV s (s.sets c.userID) with
          sets := fun k =>
            if k = c.userID then []
            else (delManyKV s (s.sets c.userID)).sets k }) := by
    unfold HandlerLogoutAll
    dsimp only
    rw [hra]
  refine ⟨by rw [hla], ?_⟩
  rw [hla]
  dsimp only
  unfold HandlerRefresh
  rw [if_neg hne, get_avail_none _ _ hconn3 hkvnone]

/-- Claims of the authenticated user "42", for the C3 witness. -/
def claims42 : Claims :=
  { userID := "42", username := "alice", role := "user",
    permissions := ["ping:read"], issuer := "chattycathy", subject := "42",
    issuedAt := 0, expiresAt := 900, notBefore := 0 }

/-- Witness for C3: after logout-all for user "42" on the concrete
one-session store, replaying the prior token "R1" is rejected. -/
theorem logout_all_blocks_prior_refresh_witness :
    (oneTokenState.conn = .available ∧ IndexComplete oneTokenState ∧
      oneTokenState.kv "R1" = some demoData ∧
      demoData.userID = claims42.userID ∧ "R1" ≠ "") ∧
    ((HandlerLogoutAll oneTokenState (some claims42)).fst = .success ∧
      (HandlerRefresh (HandlerLogoutAll oneTokenState (some claims42)).snd
          "R1" "R9" 300 "UA4" "10.0.0.7").fst = .invalidOrExpired) := by
  have hinv : IndexComplete oneTokenState := by
    intro t d h
    show t ∈ (if d.userID = "42" then ["R1"] else [])
    by_cases ht : t = "R1"
    · subst ht
      have hd : some demoData = some d := h
      obtain rfl : demoData = d := by injection hd
      simp [demoData]
    · exact absurd h (by simp [oneTokenState, ht])
  exact ⟨⟨rfl, hinv, rfl, rfl, by decide⟩,
    logout_all_blocks_prior_refresh oneTokenState claims42 "R1" "R9" demoData
      300 "UA4" "10.0.0.7" rfl hinv rfl rfl (by decide)⟩

/-- Store whose client handle exists but whose backend is unreachable:
`redis.Connect` assigns the package client before pinging, so a failed or
later-lost connection leaves a non-nil client whose every command returns a
transport error. -/
def unavailState : RedisState :=
  { conn := .unavailable, kv := fun _ => none, sets := fun _ => [] }

/-- Store whose package-level client was never assigned. -/
def nilClientState : RedisState :=
  { conn := .notInitialized, kv := fun _ => none, sets := fun _ => [] }

/-- C4 counterexample: with the backend unreachable, `get` fails with
exactly the error produced for a missing token on a healthy store —
store-unavailability is not surfaced distinctly from not-found on the get
path. -/
theorem get_on_unreachable_equals_not_found :
    GetRefreshTokenData unavailState "T1" =
      .error "refresh token not found or expired" ∧
    GetRefreshTokenData emptyAvailState "T1" =
      .error "refresh token not found or expired" ∧
    GetRefreshTokenData unavailState "T1" =
      GetRefreshTokenData emptyAvailState "T1" :=
  ⟨rfl, rfl, rfl⟩

/-- C4 (amended): with a nil client every session-store operation fails
with the distinct "redis client not initialized" error; with a live client
whose backend is unreachable, put, delete, delete-all and list fail with
transport-derived errors distinct from not-found, while get collapses the
transport failure into the not-found message. -/
theorem store_errors_by_client_condition (s : RedisState) (t u : String)
    (d : RefreshTokenData) :
    (s.conn = .notInitialized →
      StoreRefreshToken s t d = .error "redis client not initialized" ∧
      GetRefreshTokenData s t = .error "redis client not initialized" ∧
      RevokeRefreshToken s t = .error "redis client not initialized" ∧
      RevokeAllUserTokens s u = .error "redis client not initialized" ∧
      ListUserTokens s u = .error "redis client not initialized") ∧
    (s.conn = .unavailable →
      StoreRefreshToken s t d =
        .error ("failed to store refresh token: " ++ netErrMsg) ∧
      GetRefreshTokenData s t =
        .error "refresh token not found or expired" ∧
      RevokeRefreshToken s t = .error netErrMsg ∧
      RevokeAllUserTokens s u =
        .error ("failed to get user tokens: " ++ netErrMsg) ∧
      ListUserTokens s u =
        .error ("failed to get user tokens: " ++ netErrMsg)) := by
  obtain ⟨c, kvf, setf⟩ := s
  constructor
  · intro h
    dsimp at h
    subst h
    exact ⟨rfl, rfl, rfl, rfl, rfl⟩
  · intro h
    dsimp at h
    subst h
    exact ⟨rfl, rfl, rfl, rfl, rfl⟩

/-- Witness for the amended C4 at the two concrete degraded stores. -/
theorem store_errors_by_client_condition_witness :
    (StoreRefreshToken nilClientState "T1" demoData =
        .error "redis client not initialized" ∧
      GetRefreshTokenData nilClientState "T1" =
        .error "redis client not initialized" ∧
      RevokeRefreshToken nilClientState "T1" =
        .error "redis client not initialized" ∧
      RevokeAllUserTokens nilClientState "U1" =
        .error "redis client not initialized" ∧
      ListUserTokens nilClientState "U1" =
        .error "redis client not initialized") ∧
    (StoreRefreshToken unavailState "T1" demoData =
        .error ("failed to store refresh token: " ++ netErrMsg) ∧
      GetRefreshTokenData unavailState "T1" =
        .error "refresh token not found or expired" ∧
      RevokeRefreshToken unavailState "T1" = .error netErrMsg ∧
      RevokeAllUserTokens unavailState "U1" =
        .error ("failed to get user tokens: " ++ netErrMsg) ∧
      ListUserTokens unavailState "U1" =
        .error ("failed to get user tokens: " ++ netErrMsg)) :=
  ⟨(store_errors_by_client_condition nilClientState "T1" "U1" demoData).1 rfl,
   (store_errors_by_client_condition unavailState "T1" "U1" demoData).2 rfl⟩
